import Mathlib

/-!
Verification of the `MissionScene` service
(`auvsi_suas/static/auvsi_suas/components/mission-scene-service/mission-scene-service.js`).

The service converts GPS-referenced mission, obstacle and telemetry data into a
renderable scene graph.  JavaScript numbers are embedded as `ℚ`; the injected
`Distance` service's `haversine` function is an abstract parameter of type
`DistanceFn` carried in the service state; rendering resources created at
construction (geometries, materials, textures, the ground mesh, the lights) are
modelled by opaque allocation identifiers (`ℕ`); nullable arguments are
`Option`s, and a JavaScript field access on `null` is modelled as an
`Except.error` carrying a `TypeError`.  The scene is a list of scene objects in
the order the source adds them.
-/

set_option autoImplicit false

namespace AuvsiSuas

/-- The type of the injected `Distance.haversine` function:
`haversine lat1 lon1 lat2 lon2` returns a distance. -/
abbrev DistanceFn := ℚ → ℚ → ℚ → ℚ → ℚ

/-- A GPS position with `latitude` and `longitude` fields. -/
structure GpsPos where
  latitude : ℚ
  longitude : ℚ
  deriving DecidableEq

instance : Inhabited GpsPos := ⟨⟨0, 0⟩⟩

/-- A mission waypoint: GPS position plus `altitude_msl`. -/
structure Waypoint extends GpsPos where
  altitude_msl : ℚ
  deriving DecidableEq

instance : Inhabited Waypoint := ⟨⟨default, 0⟩⟩

/-- A stationary obstacle: GPS position plus cylinder dimensions. -/
structure StationaryObstacle extends GpsPos where
  cylinder_radius : ℚ
  cylinder_height : ℚ
  deriving DecidableEq

/-- A moving obstacle: GPS position plus altitude and sphere radius. -/
structure MovingObstacle extends GpsPos where
  altitude_msl : ℚ
  sphere_radius : ℚ
  deriving DecidableEq

/-- One reported telemetry position. -/
structure Telemetry extends GpsPos where
  altitude_msl : ℚ
  deriving DecidableEq

/-- The mission configuration consumed by `rebuildScene`. -/
structure Mission where
  home_pos : Option GpsPos
  air_drop_pos : GpsPos
  emergent_last_known_pos : GpsPos
  ir_primary_target_pos : GpsPos
  ir_secondary_target_pos : GpsPos
  off_axis_target_pos : GpsPos
  sric_pos : GpsPos
  search_grid_points : List GpsPos
  mission_waypoints : List Waypoint
  mission_waypoints_dist_max : ℚ
  deriving DecidableEq

/-- The obstacles data consumed by `rebuildScene`. -/
structure Obstacles where
  stationary_obstacles : List StationaryObstacle
  moving_obstacles : List MovingObstacle
  deriving DecidableEq

/-- A 3D vector (`THREE.Vector3`). -/
structure Vec3 where
  x : ℚ
  y : ℚ
  z : ℚ
  deriving DecidableEq

instance : Inhabited Vec3 := ⟨⟨0, 0, 0⟩⟩

/-- `Math.sign` on the rational embedding of JavaScript numbers. -/
def jsSign (q : ℚ) : ℚ :=
  if q < 0 then -1 else if 0 < q then 1 else 0

/-- `MissionScene.prototype.setObjectPosition_`: converts GPS position `pos`
with altitude `alt` to the local reference frame centred at `refPos`, using the
injected haversine function `d` once per axis (latitude held fixed for the
longitude distance and vice versa) and `Math.sign` of the raw coordinate
differences. -/
def setObjectPosition_ (d : DistanceFn) (pos : GpsPos) (alt : ℚ) (refPos : GpsPos) : Vec3 :=
  let distX := d refPos.latitude pos.longitude refPos.latitude refPos.longitude
  let distY := d pos.latitude refPos.longitude refPos.latitude refPos.longitude
  { x := jsSign (pos.longitude - refPos.longitude) * distX
    y := jsSign (pos.latitude - refPos.latitude) * distY
    z := alt }

/-- Which call site created a marker mesh; a specification tag recording the
geometry/material pair the source passes to `createObject_`. -/
inductive MarkerKind where
  | homePos
  | missionComponent
  | searchGridPt
  | missionWaypoint
  | stationaryObstacle
  | movingObstacle
  | telemetry
  deriving DecidableEq

/-- Which call site created a line object. -/
inductive LineKind where
  | searchGrid
  | missionWaypoint
  deriving DecidableEq

/-- A `THREE.Mesh` marker added to the scene.  `geometry` and `material` are
the allocation identifiers of the shared resources the mesh references.
`rotation` is recorded in units of π radians (the source's `Math.PI/2` is
stored as `1/2`). -/
structure Marker where
  kind : MarkerKind
  geometry : ℕ
  material : ℕ
  position : Vec3
  scale : Vec3
  rotation : Vec3
  castShadow : Bool
  receiveShadow : Bool
  deriving DecidableEq

instance : Inhabited Marker :=
  ⟨⟨MarkerKind.homePos, 0, 0, default, default, default, false, false⟩⟩

/-- An object held by the scene graph: the shared ground mesh, the two shared
lights, a per-rebuild marker mesh, or a per-rebuild line object whose geometry
holds a list of segments (consecutive vertex pairs pushed by the source). -/
inductive SceneObject where
  | groundObj (id : ℕ)
  | skyLightObj (id : ℕ)
  | sunLightObj (id : ℕ)
  | markerObj (m : Marker)
  | lineObj (kind : LineKind) (material : ℕ) (segments : List (Vec3 × Vec3))
  deriving DecidableEq

/-- The scene graph: objects in the order the source adds them. -/
abbrev Scene := List SceneObject

/-- A `$rootScope.$broadcast` emission: the event name together with the value
of the public `scene` field at the moment of emission (what an observer
reacting synchronously to the event reads). -/
structure Event where
  name : String
  sceneAtEmission : Option Scene
  deriving DecidableEq

/-- The `'MissionScene.sceneUpdated'` event name. -/
def sceneUpdatedEvent : String := "MissionScene.sceneUpdated"

/-- A JavaScript runtime failure that propagates out of the component. -/
inductive JsError where
  | typeError (msg : String)
  deriving DecidableEq

/-- The `MissionScene` service state: the injected haversine function, the
public `scene` field (`null` until the first rebuild), and the rendering
resources allocated by the constructor, as opaque allocation identifiers,
together with the constructor-set radius constants. -/
structure MissionScene where
  distance_ : DistanceFn
  scene : Option Scene
  skyLight : ℕ
  sunLight : ℕ
  groundTexture_ : ℕ
  groundMaterial_ : ℕ
  groundGeometry_ : ℕ
  ground : ℕ
  missionComponentRadius_ : ℚ
  missionComponentGeometry_ : ℕ
  missionComponentMaterial_ : ℕ
  homePosGeometry_ : ℕ
  homePosMaterial_ : ℕ
  searchGridPtGeometry_ : ℕ
  searchGridPtMaterial_ : ℕ
  searchGridPtRadius_ : ℚ
  searchGridPtLineMaterial_ : ℕ
  missionWaypointGeometry_ : ℕ
  missionWaypointMaterial_ : ℕ
  missionWaypointLineMaterial_ : ℕ
  stationaryObstacleGeometry_ : ℕ
  stationaryObstacleMaterial_ : ℕ
  movingObstacleGeometry_ : ℕ
  movingObstacleMaterial_ : ℕ
  telemetryGeometry_ : ℕ
  telemetryRadius_ : ℚ
  telemetryMaterial_ : ℕ

/-- The `MissionScene` constructor: takes the injected haversine function and
fresh allocation identifiers for each `new`-allocated resource, sets
`this.scene = null`, the radius constants to `20`, and the aliased
geometry/material fields to the resources they share in the source
(`homePosGeometry_ = missionComponentGeometry_`, etc.). -/
def mkMissionScene (d : DistanceFn)
    (skyId sunId texId gMatId gGeoId groundId mcGeoId mcMatId hpMatId
     sgMatId sgLineMatId wpMatId wpLineMatId soGeoId soMatId telMatId : ℕ) :
    MissionScene where
  distance_ := d
  scene := none
  skyLight := skyId
  sunLight := sunId
  groundTexture_ := texId
  groundMaterial_ := gMatId
  groundGeometry_ := gGeoId
  ground := groundId
  missionComponentRadius_ := 20
  missionComponentGeometry_ := mcGeoId
  missionComponentMaterial_ := mcMatId
  homePosGeometry_ := mcGeoId
  homePosMaterial_ := hpMatId
  searchGridPtGeometry_ := mcGeoId
  searchGridPtMaterial_ := sgMatId
  searchGridPtRadius_ := 20
  searchGridPtLineMaterial_ := sgLineMatId
  missionWaypointGeometry_ := mcGeoId
  missionWaypointMaterial_ := wpMatId
  missionWaypointLineMaterial_ := wpLineMatId
  stationaryObstacleGeometry_ := soGeoId
  stationaryObstacleMaterial_ := soMatId
  movingObstacleGeometry_ := mcGeoId
  movingObstacleMaterial_ := soMatId
  telemetryGeometry_ := mcGeoId
  telemetryRadius_ := 20
  telemetryMaterial_ := telMatId

/-- `MissionScene.prototype.createObject_`: a mesh with the given shared
geometry and material, positioned by `setObjectPosition_`, uniformly scaled,
and flagged to cast and receive shadows.  (The source also adds the mesh to
the scene; call sites below append the result.) -/
def createObject_ (ms : MissionScene) (kind : MarkerKind) (geometry material : ℕ)
    (pos : GpsPos) (alt : ℚ) (refPos : GpsPos) (scale : ℚ) : Marker where
  kind := kind
  geometry := geometry
  material := material
  position := setObjectPosition_ ms.distance_ pos alt refPos
  scale := ⟨scale, scale, scale⟩
  rotation := ⟨0, 0, 0⟩
  castShadow := true
  receiveShadow := true

/-- The segments pushed by the search-grid line loop: for each index
`i < pts.length` one segment from `pts[i]` to `pts[(i+1) % pts.length]`. -/
def closedLoopSegments (pts : List Vec3) : List (Vec3 × Vec3) :=
  (List.range pts.length).map fun i =>
    (pts.getD i default, pts.getD ((i + 1) % pts.length) default)

/-- The segments pushed by the waypoint line loop: for each index
`i < pts.length - 1` one segment from `pts[i]` to `pts[i+1]`, no wrap. -/
def openPathSegments (pts : List Vec3) : List (Vec3 × Vec3) :=
  (List.range (pts.length - 1)).map fun i =>
    (pts.getD i default, pts.getD (i + 1) default)

/-- The search-grid points converted to the local frame exactly as the line
loop converts them (altitude = `searchGridPtRadius_`, reference = home). -/
def convertedGridPts (ms : MissionScene) (mission : Mission) (hp : GpsPos) : List Vec3 :=
  mission.search_grid_points.map fun p =>
    setObjectPosition_ ms.distance_ p ms.searchGridPtRadius_ hp

/-- The mission waypoints converted to the local frame exactly as the waypoint
line loop converts them (altitude = `altitude_msl`, reference = home). -/
def convertedWaypoints (ms : MissionScene) (mission : Mission) (hp : GpsPos) : List Vec3 :=
  mission.mission_waypoints.map fun w =>
    setObjectPosition_ ms.distance_ w.toGpsPos w.altitude_msl hp

/-- `MissionScene.prototype.addMissionSceneElements_`.  `hp` is the value of
`mission.home_pos`, guaranteed present by the guard in `rebuildScene`; the
source reads `mission.home_pos` directly at each use.  Returns the objects
added to the scene, in source order: home marker, six mission-component
markers, search-grid markers, search-grid line, waypoint markers, waypoint
line. -/
def addMissionSceneElements_ (ms : MissionScene) (mission : Mission) (hp : GpsPos) :
    List SceneObject :=
  let homeObj := createObject_ ms MarkerKind.homePos ms.homePosGeometry_ ms.homePosMaterial_
    hp ms.missionComponentRadius_ hp ms.missionComponentRadius_
  let missionComponents := [mission.air_drop_pos, mission.emergent_last_known_pos,
    mission.ir_primary_target_pos, mission.ir_secondary_target_pos,
    mission.off_axis_target_pos, mission.sric_pos]
  let componentObjs := missionComponents.map fun c =>
    SceneObject.markerObj (createObject_ ms MarkerKind.missionComponent
      ms.missionComponentGeometry_ ms.missionComponentMaterial_
      c ms.missionComponentRadius_ hp ms.missionComponentRadius_)
  let searchPtObjs := mission.search_grid_points.map fun p =>
    SceneObject.markerObj (createObject_ ms MarkerKind.searchGridPt
      ms.searchGridPtGeometry_ ms.searchGridPtMaterial_
      p ms.searchGridPtRadius_ hp ms.searchGridPtRadius_)
  let searchGridPtLine := SceneObject.lineObj LineKind.searchGrid
    ms.searchGridPtLineMaterial_ (closedLoopSegments (convertedGridPts ms mission hp))
  let waypointObjs := mission.mission_waypoints.map fun w =>
    SceneObject.markerObj (createObject_ ms MarkerKind.missionWaypoint
      ms.missionWaypointGeometry_ ms.missionWaypointMaterial_
      w.toGpsPos w.altitude_msl hp mission.mission_waypoints_dist_max)
  let missionWaypointLine := SceneObject.lineObj LineKind.missionWaypoint
    ms.missionWaypointLineMaterial_ (openPathSegments (convertedWaypoints ms mission hp))
  [SceneObject.markerObj homeObj] ++ componentObjs ++ searchPtObjs
    ++ [searchGridPtLine] ++ waypointObjs ++ [missionWaypointLine]

/-- `MissionScene.prototype.addObstacleSceneElements_`.  Accessing
`obstacles.stationary_obstacles` on a `null` obstacles argument raises a
`TypeError`.  Stationary obstacles are created via `createObject_` with scale
`1` and then have their scale overwritten to
`(cylinder_radius, cylinder_height, cylinder_radius)` and their rotation set
to `(π/2, 0, 0)` (recorded as `(1/2, 0, 0)` in units of π). -/
def addObstacleSceneElements_ (ms : MissionScene) (mission : Mission)
    (obstacles : Option Obstacles) (hp : GpsPos) : Except JsError (List SceneObject) :=
  match obstacles with
  | none => Except.error (JsError.typeError ("Cannot read property of null"))
  | some obs =>
    let statObjs := obs.stationary_obstacles.map fun o =>
      let obj := createObject_ ms MarkerKind.stationaryObstacle
        ms.stationaryObstacleGeometry_ ms.stationaryObstacleMaterial_
        o.toGpsPos (o.cylinder_height / 2) hp 1
      SceneObject.markerObj
        { obj with
          scale := ⟨o.cylinder_radius, o.cylinder_height, o.cylinder_radius⟩
          rotation := ⟨1/2, 0, 0⟩ }
    let movObjs := obs.moving_obstacles.map fun o =>
      SceneObject.markerObj (createObject_ ms MarkerKind.movingObstacle
        ms.movingObstacleGeometry_ ms.movingObstacleMaterial_
        o.toGpsPos o.altitude_msl hp o.sphere_radius)
    Except.ok (statObjs ++ movObjs)

/-- `MissionScene.prototype.addTelemetrySceneElements_`.  Accessing
`telemetry.length` on a `null` telemetry argument raises a `TypeError`. -/
def addTelemetrySceneElements_ (ms : MissionScene) (mission : Mission)
    (telemetry : Option (List Telemetry)) (hp : GpsPos) :
    Except JsError (List SceneObject) :=
  match telemetry with
  | none => Except.error (JsError.typeError ("Cannot read property of null"))
  | some ts =>
    Except.ok (ts.map fun t =>
      SceneObject.markerObj (createObject_ ms MarkerKind.telemetry
        ms.telemetryGeometry_ ms.telemetryMaterial_
        t.toGpsPos t.altitude_msl hp ms.telemetryRadius_))

/-- The scene-building portion of `rebuildScene`: ground, sky light and sun
light are always added; mission, obstacle and telemetry elements are added
only when `mission` is truthy and has a truthy `home_pos`. -/
def buildSceneE (ms : MissionScene) (mission : Option Mission)
    (obstacles : Option Obstacles) (telemetry : Option (List Telemetry)) :
    Except JsError Scene :=
  let base : Scene := [SceneObject.groundObj ms.ground,
    SceneObject.skyLightObj ms.skyLight, SceneObject.sunLightObj ms.sunLight]
  match mission with
  | none => Except.ok base
  | some m =>
    match m.home_pos with
    | none => Except.ok base
    | some hp =>
      let missionObjs := addMissionSceneElements_ ms m hp
      match addObstacleSceneElements_ ms m obstacles hp with
      | Except.error e => Except.error e
      | Except.ok obstacleObjs =>
        match addTelemetrySceneElements_ ms m telemetry hp with
        | Except.error e => Except.error e
        | Except.ok telemetryObjs =>
          Except.ok (base ++ missionObjs ++ obstacleObjs ++ telemetryObjs)

/-- `MissionScene.prototype.rebuildScene`: builds the scene, then (only if no
exception was raised) assigns the public `scene` field and broadcasts
`'MissionScene.sceneUpdated'`.  The emitted event records the value of the
`scene` field at emission time, which is after the assignment. -/
def rebuildSceneE (ms : MissionScene) (mission : Option Mission)
    (obstacles : Option Obstacles) (telemetry : Option (List Telemetry)) :
    Except JsError (MissionScene × List Event) :=
  match buildSceneE ms mission obstacles telemetry with
  | Except.error e => Except.error e
  | Except.ok s =>
    let ms' := { ms with scene := some s }
    Except.ok (ms', [{ name := sceneUpdatedEvent, sceneAtEmission := ms'.scene }])

/-- The observable outcome of a call to `rebuildScene`: on success the updated
state and the emitted events; if an exception propagates, the state is
unchanged (the `scene` assignment and the broadcast come after all
element-adding calls) and nothing was emitted. -/
def runRebuild (ms : MissionScene) (mission : Option Mission)
    (obstacles : Option Obstacles) (telemetry : Option (List Telemetry)) :
    MissionScene × List Event :=
  match rebuildSceneE ms mission obstacles telemetry with
  | Except.ok r => r
  | Except.error _ => (ms, [])

/-- `true` iff the call to `rebuildScene` completes without a runtime
failure. -/
def rebuildOk (ms : MissionScene) (mission : Option Mission)
    (obstacles : Option Obstacles) (telemetry : Option (List Telemetry)) : Bool :=
  match rebuildSceneE ms mission obstacles telemetry with
  | Except.ok _ => true
  | Except.error _ => false

/-- The marker meshes of a scene, in order. -/
def markersOf (s : Scene) : List Marker :=
  s.filterMap fun o =>
    match o with
    | SceneObject.markerObj m => some m
    | _ => none

/-- The segment lists of the line objects of kind `k` in a scene, in order. -/
def linesOf (k : LineKind) (s : Scene) : List (List (Vec3 × Vec3)) :=
  s.filterMap fun o =>
    match o with
    | SceneObject.lineObj k' _ segs => if k' = k then some segs else none
    | _ => none

/-- A marker's scale is uniform: equal factors on all three axes. -/
def uniformScale (mk : Marker) : Bool :=
  decide (mk.scale.x = mk.scale.y ∧ mk.scale.y = mk.scale.z)

/-- A marker was placed by the shared conversion routine
`setObjectPosition_`, relative to the reference position `hp`. -/
def viaConversion (d : DistanceFn) (hp : GpsPos) (mk : Marker) : Prop :=
  ∃ p a, mk.position = setObjectPosition_ d p a hp

/-- The per-marker properties guaranteed by `createObject_` as the obstacle
code modifies them: shadows on, placed via `setObjectPosition_`, uniformly
scaled unless the marker is a stationary-obstacle cylinder, and for
stationary-obstacle cylinders equal scale on the two horizontal axes. -/
def goodMarker (d : DistanceFn) (hp : GpsPos) (mk : Marker) : Prop :=
  mk.castShadow = true ∧ mk.receiveShadow = true ∧ viaConversion d hp mk ∧
    (mk.kind ≠ MarkerKind.stationaryObstacle → uniformScale mk = true) ∧
    (mk.kind = MarkerKind.stationaryObstacle → mk.scale.x = mk.scale.z)

/-! ### Helper lemmas -/

theorem jsSign_zero : jsSign 0 = 0 := rfl

theorem jsSign_of_pos {q : ℚ} (h : 0 < q) : jsSign q = 1 := by
  unfold jsSign
  rw [if_neg (not_lt.mpr h.le), if_pos h]

theorem jsSign_of_neg {q : ℚ} (h : q < 0) : jsSign q = -1 := by
  unfold jsSign
  rw [if_pos h]

/-- Behaviour of a signed-distance component `sign Δ * D` when the distance
`D` vanishes with `Δ` and is positive otherwise. -/
theorem signedDist_spec (Δ D : ℚ) (h0 : Δ = 0 → D = 0) (hpos : Δ ≠ 0 → 0 < D) :
    jsSign (jsSign Δ * D) = jsSign Δ ∧ |jsSign Δ * D| = D := by
  rcases lt_trichotomy Δ 0 with hΔ | hΔ | hΔ
  · have hD := hpos (ne_of_lt hΔ)
    rw [jsSign_of_neg hΔ, neg_one_mul]
    exact ⟨jsSign_of_neg (neg_neg_iff_pos.mpr hD), by rw [abs_neg, abs_of_pos hD]⟩
  · subst hΔ
    rw [jsSign_zero, zero_mul, jsSign_zero, abs_zero, h0 rfl]
    exact ⟨rfl, rfl⟩
  · have hD := hpos (ne_of_gt hΔ)
    rw [jsSign_of_pos hΔ, one_mul]
    exact ⟨jsSign_of_pos hD, abs_of_pos hD⟩

theorem markersOf_nil : markersOf [] = [] := rfl

theorem markersOf_lights (a b c : ℕ) :
    markersOf [SceneObject.groundObj a, SceneObject.skyLightObj b,
      SceneObject.sunLightObj c] = [] := rfl

theorem markersOf_append (a b : Scene) :
    markersOf (a ++ b) = markersOf a ++ markersOf b :=
  List.filterMap_append a b _

theorem markersOf_markerObj_cons (m : Marker) (s : Scene) :
    markersOf (SceneObject.markerObj m :: s) = m :: markersOf s := rfl

theorem markersOf_lineObj_cons (k : LineKind) (mat : ℕ) (segs : List (Vec3 × Vec3))
    (s : Scene) : markersOf (SceneObject.lineObj k mat segs :: s) = markersOf s := rfl

theorem markersOf_map_markerObj {α : Type} (l : List α) (g : α → Marker) :
    markersOf (l.map fun a => SceneObject.markerObj (g a)) = l.map g := by
  induction l with
  | nil => rfl
  | cons a t ih => simpa [markersOf] using ih

theorem linesOf_append (k : LineKind) (a b : Scene) :
    linesOf k (a ++ b) = linesOf k a ++ linesOf k b :=
  List.filterMap_append a b _

theorem linesOf_map_markerObj {α : Type} (k : LineKind) (l : List α) (g : α → Marker) :
    linesOf k (l.map fun a => SceneObject.markerObj (g a)) = [] := by
  induction l with
  | nil => rfl
  | cons a t ih => simpa [linesOf] using ih

theorem linesOf_lights (k : LineKind) (a b c : ℕ) :
    linesOf k [SceneObject.groundObj a, SceneObject.skyLightObj b,
      SceneObject.sunLightObj c] = [] := rfl

theorem linesOf_marker_singleton (k : LineKind) (m : Marker) :
    linesOf k [SceneObject.markerObj m] = [] := rfl

theorem linesOf_markerObj_cons (k : LineKind) (m : Marker) (s : Scene) :
    linesOf k (SceneObject.markerObj m :: s) = linesOf k s := rfl

theorem linesOf_sg_cons_sg (mat : ℕ) (segs : List (Vec3 × Vec3)) (s : Scene) :
    linesOf LineKind.searchGrid (SceneObject.lineObj LineKind.searchGrid mat segs :: s) =
      segs :: linesOf LineKind.searchGrid s := rfl

theorem linesOf_sg_cons_wp (mat : ℕ) (segs : List (Vec3 × Vec3)) (s : Scene) :
    linesOf LineKind.searchGrid
      (SceneObject.lineObj LineKind.missionWaypoint mat segs :: s) =
      linesOf LineKind.searchGrid s := rfl

theorem linesOf_wp_cons_wp (mat : ℕ) (segs : List (Vec3 × Vec3)) (s : Scene) :
    linesOf LineKind.missionWaypoint
      (SceneObject.lineObj LineKind.missionWaypoint mat segs :: s) =
      segs :: linesOf LineKind.missionWaypoint s := rfl

theorem linesOf_wp_cons_sg (mat : ℕ) (segs : List (Vec3 × Vec3)) (s : Scene) :
    linesOf LineKind.missionWaypoint
      (SceneObject.lineObj LineKind.searchGrid mat segs :: s) =
      linesOf LineKind.missionWaypoint s := rfl

theorem linesOf_nil (k : LineKind) : linesOf k [] = [] := rfl

theorem linesOf_ground_cons (k : LineKind) (i : ℕ) (s : Scene) :
    linesOf k (SceneObject.groundObj i :: s) = linesOf k s := rfl

theorem linesOf_sky_cons (k : LineKind) (i : ℕ) (s : Scene) :
    linesOf k (SceneObject.skyLightObj i :: s) = linesOf k s := rfl

theorem linesOf_sun_cons (k : LineKind) (i : ℕ) (s : Scene) :
    linesOf k (SceneObject.sunLightObj i :: s) = linesOf k s := rfl

theorem linesOf_sg_line_sg (mat : ℕ) (segs : List (Vec3 × Vec3)) :
    linesOf LineKind.searchGrid
      [SceneObject.lineObj LineKind.searchGrid mat segs] = [segs] := rfl

theorem linesOf_sg_line_wp (mat : ℕ) (segs : List (Vec3 × Vec3)) :
    linesOf LineKind.searchGrid
      [SceneObject.lineObj LineKind.missionWaypoint mat segs] = [] := rfl

theorem linesOf_wp_line_wp (mat : ℕ) (segs : List (Vec3 × Vec3)) :
    linesOf LineKind.missionWaypoint
      [SceneObject.lineObj LineKind.missionWaypoint mat segs] = [segs] := rfl

theorem linesOf_wp_line_sg (mat : ℕ) (segs : List (Vec3 × Vec3)) :
    linesOf LineKind.missionWaypoint
      [SceneObject.lineObj LineKind.searchGrid mat segs] = [] := rfl

theorem closedLoopSegments_length (pts : List Vec3) :
    (closedLoopSegments pts).length = pts.length := by
  simp [closedLoopSegments]

theorem openPathSegments_length (pts : List Vec3) :
    (openPathSegments pts).length = pts.length - 1 := by
  simp [openPathSegments]

theorem getD_map_range {α : Type} [Inhabited α] (n i : ℕ) (f : ℕ → α) (h : i < n) :
    ((List.range n).map f).getD i default = f i := by
  rw [List.getD_eq_getElem?_getD, List.getElem?_map, List.getElem?_range h]
  rfl

theorem closedLoopSegments_getD (pts : List Vec3) (i : ℕ) (h : i < pts.length) :
    (closedLoopSegments pts).getD i default =
      (pts.getD i default, pts.getD ((i + 1) % pts.length) default) := by
  unfold closedLoopSegments
  exact getD_map_range pts.length i _ h

theorem openPathSegments_getD (pts : List Vec3) (i : ℕ) (h : i < pts.length - 1) :
    (openPathSegments pts).getD i default =
      (pts.getD i default, pts.getD (i + 1) default) := by
  unfold openPathSegments
  exact getD_map_range (pts.length - 1) i _ h

theorem getD_map {α β : Type} [Inhabited β] (l : List α) (f : α → β) (i : ℕ)
    (dflt : α) (h : i < l.length) :
    (l.map f).getD i default = f (l.getD i dflt) := by
  rw [List.getD_eq_getElem?_getD, List.getElem?_map,
    List.getD_eq_getElem?_getD, List.getElem?_eq_getElem h]
  rfl

/-- `buildSceneE` never reads the `scene` field of the state. -/
theorem buildSceneE_update_scene (ms : MissionScene) (x : Option Scene)
    (mission : Option Mission) (obstacles : Option Obstacles)
    (telemetry : Option (List Telemetry)) :
    buildSceneE { ms with scene := x } mission obstacles telemetry =
      buildSceneE ms mission obstacles telemetry := by
  cases ms
  rfl

/-! ### Concrete instances used by witnesses and counterexamples -/

/-- A concrete computable stand-in for the injected haversine function: the
taxicab distance on coordinate pairs.  It vanishes on identical pairs and is
positive on distinct pairs, like the haversine on the coordinate ranges the
application uses. -/
def taxicab : DistanceFn := fun lat1 lon1 lat2 lon2 => |lat1 - lat2| + |lon1 - lon2|

/-- A concrete service instance with distinct allocation identifiers. -/
def ms0 : MissionScene :=
  mkMissionScene taxicab 0 1 2 3 4 5 6 7 8 9 10 11 12 13 14 15

/-- A concrete mission with a home position, three search-grid points and two
waypoints. -/
def mission0 : Mission where
  home_pos := some ⟨10, 20⟩
  air_drop_pos := ⟨1, 1⟩
  emergent_last_known_pos := ⟨2, 2⟩
  ir_primary_target_pos := ⟨3, 3⟩
  ir_secondary_target_pos := ⟨4, 4⟩
  off_axis_target_pos := ⟨5, 5⟩
  sric_pos := ⟨6, 6⟩
  search_grid_points := [⟨10, 21⟩, ⟨11, 21⟩, ⟨11, 20⟩]
  mission_waypoints := [⟨⟨10, 22⟩, 100⟩, ⟨⟨12, 20⟩, 200⟩]
  mission_waypoints_dist_max := 2

/-- A concrete obstacle set with one stationary obstacle (radius 5, height 30)
and one moving obstacle. -/
def obstacles0 : Obstacles where
  stationary_obstacles := [⟨⟨11, 21⟩, 5, 30⟩]
  moving_obstacles := [⟨⟨12, 22⟩, 100, 10⟩]

/-- A concrete telemetry list with one reported position. -/
def tel0 : List Telemetry := [⟨⟨13, 23⟩, 50⟩]

/-- The state after a successful rebuild of `ms0` with the full inputs. -/
def st0 : MissionScene := (runRebuild ms0 (some mission0) (some obstacles0) (some tel0)).1

/-- The events emitted by that rebuild. -/
def ev0 : List Event := (runRebuild ms0 (some mission0) (some obstacles0) (some tel0)).2

/-- The scene built by that rebuild. -/
def s0 : Scene := (st0.scene).getD []

/-- The first marker of that scene. -/
def mk0 : Marker := (markersOf s0).getD 0 default

theorem getD_mem {α : Type} [Inhabited α] (l : List α) (i : ℕ) (h : i < l.length) :
    l.getD i default ∈ l := by
  simp only [List.getD_eq_getElem?_getD, List.getElem?_eq_getElem h, Option.getD_some]
  exact List.getElem_mem h

/-! ### Claim theorems -/

/-- C1: `setObjectPosition_` yields local `x = y = 0` when the position equals
the reference; for every position the sign of `x` equals the sign of
`P.longitude - R.longitude` and the sign of `y` equals the sign of
`P.latitude - R.latitude`; the magnitude of `x` is the distance function
applied with latitude held fixed, the magnitude of `y` the distance function
with longitude held fixed; `z` is the altitude unchanged.  The hypotheses say
the injected distance function is a distance: zero on identical points and
positive on points differing in exactly one coordinate, as the haversine is on
the application's coordinate ranges. -/
theorem setObjectPosition_zero_sign_magnitude (d : DistanceFn) (R P : GpsPos) (alt : ℚ)
    (hzero : ∀ a b, d a b a b = 0)
    (hlon : ∀ a b c, b ≠ c → 0 < d a b a c)
    (hlat : ∀ a b c, a ≠ c → 0 < d a b c b) :
    (P = R → (setObjectPosition_ d P alt R).x = 0 ∧ (setObjectPosition_ d P alt R).y = 0) ∧
    jsSign (setObjectPosition_ d P alt R).x = jsSign (P.longitude - R.longitude) ∧
    jsSign (setObjectPosition_ d P alt R).y = jsSign (P.latitude - R.latitude) ∧
    |(setObjectPosition_ d P alt R).x| = d R.latitude P.longitude R.latitude R.longitude ∧
    |(setObjectPosition_ d P alt R).y| = d P.latitude R.longitude R.latitude R.longitude ∧
    (setObjectPosition_ d P alt R).z = alt := by
  have hx := signedDist_spec (P.longitude - R.longitude)
    (d R.latitude P.longitude R.latitude R.longitude)
    (fun h => by rw [sub_eq_zero.mp h]; exact hzero R.latitude R.longitude)
    (fun h => hlon R.latitude P.longitude R.longitude (sub_ne_zero.mp h))
  have hy := signedDist_spec (P.latitude - R.latitude)
    (d P.latitude R.longitude R.latitude R.longitude)
    (fun h => by rw [sub_eq_zero.mp h]; exact hzero R.latitude R.longitude)
    (fun h => hlat P.latitude R.longitude R.latitude (sub_ne_zero.mp h))
  refine ⟨?_, hx.1, hy.1, hx.2, hy.2, rfl⟩
  rintro rfl
  simp [setObjectPosition_, jsSign_zero]

/-- Witness for C1 at the concrete distance function `taxicab`, reference
`(1, 2)`, position `(3, 5)` and altitude `7`. -/
theorem setObjectPosition_zero_sign_magnitude_witness :
    ((⟨3, 5⟩ : GpsPos) = ⟨1, 2⟩ →
      (setObjectPosition_ taxicab ⟨3, 5⟩ 7 ⟨1, 2⟩).x = 0 ∧
      (setObjectPosition_ taxicab ⟨3, 5⟩ 7 ⟨1, 2⟩).y = 0) ∧
    jsSign (setObjectPosition_ taxicab ⟨3, 5⟩ 7 ⟨1, 2⟩).x =
      jsSign ((⟨3, 5⟩ : GpsPos).longitude - (⟨1, 2⟩ : GpsPos).longitude) ∧
    jsSign (setObjectPosition_ taxicab ⟨3, 5⟩ 7 ⟨1, 2⟩).y =
      jsSign ((⟨3, 5⟩ : GpsPos).latitude - (⟨1, 2⟩ : GpsPos).latitude) ∧
    |(setObjectPosition_ taxicab ⟨3, 5⟩ 7 ⟨1, 2⟩).x| =
      taxicab (⟨1, 2⟩ : GpsPos).latitude (⟨3, 5⟩ : GpsPos).longitude
        (⟨1, 2⟩ : GpsPos).latitude (⟨1, 2⟩ : GpsPos).longitude ∧
    |(setObjectPosition_ taxicab ⟨3, 5⟩ 7 ⟨1, 2⟩).y| =
      taxicab (⟨3, 5⟩ : GpsPos).latitude (⟨1, 2⟩ : GpsPos).longitude
        (⟨1, 2⟩ : GpsPos).latitude (⟨1, 2⟩ : GpsPos).longitude ∧
    (setObjectPosition_ taxicab ⟨3, 5⟩ 7 ⟨1, 2⟩).z = 7 :=
  setObjectPosition_zero_sign_magnitude taxicab ⟨1, 2⟩ ⟨3, 5⟩ 7
    (fun a b => by simp [taxicab])
    (fun a b c h => by
      simpa [taxicab] using abs_pos.mpr (sub_ne_zero.mpr h))
    (fun a b c h => by
      simpa [taxicab] using abs_pos.mpr (sub_ne_zero.mpr h))

/-- C2: when `mission` is null/absent, or `mission.home_pos` is null/absent,
`rebuildScene` succeeds and the resulting scene is exactly the ground plane,
the hemisphere light and the directional light — three objects, no markers,
lines, obstacles or telemetry objects. -/
theorem rebuildScene_no_home_minimal_scene (ms : MissionScene) (mission : Option Mission)
    (obstacles : Option Obstacles) (telemetry : Option (List Telemetry))
    (h : mission = none ∨ ∃ m, mission = some m ∧ m.home_pos = none) :
    rebuildSceneE ms mission obstacles telemetry =
      Except.ok
        ({ ms with scene := some [SceneObject.groundObj ms.ground,
            SceneObject.skyLightObj ms.skyLight, SceneObject.sunLightObj ms.sunLight] },
         [{ name := sceneUpdatedEvent,
            sceneAtEmission := some [SceneObject.groundObj ms.ground,
              SceneObject.skyLightObj ms.skyLight, SceneObject.sunLightObj ms.sunLight] }]) := by
  rcases h with rfl | ⟨m, rfl, hm⟩
  · rfl
  · simp [rebuildSceneE, buildSceneE, hm]

/-- Witness for C2: the concrete service with a null mission. -/
theorem rebuildScene_no_home_minimal_scene_witness :
    rebuildSceneE ms0 none (some obstacles0) (some tel0) =
      Except.ok
        ({ ms0 with scene := some [SceneObject.groundObj ms0.ground,
            SceneObject.skyLightObj ms0.skyLight, SceneObject.sunLightObj ms0.sunLight] },
         [{ name := sceneUpdatedEvent,
            sceneAtEmission := some [SceneObject.groundObj ms0.ground,
              SceneObject.skyLightObj ms0.skyLight, SceneObject.sunLightObj ms0.sunLight] }]) :=
  rebuildScene_no_home_minimal_scene ms0 none (some obstacles0) (some tel0) (Or.inl rfl)

/-- C3: every successful call to `rebuildScene` emits exactly one
`'MissionScene.sceneUpdated'` event, and the scene field observed at emission
time is the already-updated (non-null) scene field of the post state. -/
theorem rebuildScene_single_notification_after_update (ms : MissionScene)
    (mission : Option Mission) (obstacles : Option Obstacles)
    (telemetry : Option (List Telemetry)) (st : MissionScene) (ev : List Event)
    (h : rebuildSceneE ms mission obstacles telemetry = Except.ok (st, ev)) :
    ev = [{ name := sceneUpdatedEvent, sceneAtEmission := st.scene }] ∧
      st.scene ≠ none := by
  unfold rebuildSceneE at h
  cases hb : buildSceneE ms mission obstacles telemetry with
  | error e => rw [hb] at h; cases h
  | ok s =>
    rw [hb] at h
    obtain ⟨h1, h2⟩ := Prod.mk.injEq .. ▸ (Except.ok.inj h)
    subst h1; subst h2
    exact ⟨rfl, by simp⟩

/-- Witness for C3 at the concrete full rebuild. -/
theorem rebuildScene_single_notification_after_update_witness :
    ev0 = [{ name := sceneUpdatedEvent, sceneAtEmission := st0.scene }] ∧
      st0.scene ≠ none :=
  rebuildScene_single_notification_after_update ms0 (some mission0) (some obstacles0)
    (some tel0) st0 ev0 rfl

/-- C4 counterexample: with a mission that has a home position, a null
`obstacles` argument makes `rebuildScene` raise a `TypeError` (the source
dereferences `obstacles.stationary_obstacles`), so the call does not complete
for every combination of null inputs. -/
theorem rebuildScene_null_obstacles_raises :
    rebuildSceneE ms0 (some mission0) none (some []) =
      Except.error (JsError.typeError ("Cannot read property of null")) := rfl

/-- C4 amended: `rebuildScene` completes without a runtime failure whenever
the mission is null/absent or has no home position (any obstacles/telemetry
then tolerated), and whenever obstacles and telemetry are both present; only
a mission with a home position combined with null obstacles or null telemetry
fails. -/
theorem rebuildScene_ok_cases (ms : MissionScene) (mission : Option Mission)
    (obstacles : Option Obstacles) (telemetry : Option (List Telemetry))
    (h : mission = none ∨ (∃ m, mission = some m ∧ m.home_pos = none) ∨
      (obstacles ≠ none ∧ telemetry ≠ none)) :
    rebuildOk ms mission obstacles telemetry = true := by
  rcases h with rfl | ⟨m, rfl, hm⟩ | ⟨ho, ht⟩
  · rfl
  · simp [rebuildOk, rebuildSceneE, buildSceneE, hm]
  · cases mission with
    | none => rfl
    | some m =>
      cases hm : m.home_pos with
      | none => simp [rebuildOk, rebuildSceneE, buildSceneE, hm]
      | some hp =>
        cases obstacles with
        | none => exact absurd rfl ho
        | some obs =>
          cases telemetry with
          | none => exact absurd rfl ht
          | some ts =>
            simp [rebuildOk, rebuildSceneE, buildSceneE, hm,
              addObstacleSceneElements_, addTelemetrySceneElements_]

/-- Witness for the amended C4: the full concrete inputs complete without
failure. -/
theorem rebuildScene_ok_cases_witness :
    rebuildOk ms0 (some mission0) (some obstacles0) (some tel0) = true :=
  rebuildScene_ok_cases ms0 (some mission0) (some obstacles0) (some tel0)
    (Or.inr (Or.inr ⟨Option.some_ne_none obstacles0, Option.some_ne_none tel0⟩))

/-- Every marker built by `createObject_` satisfies the per-marker
properties. -/
theorem goodMarker_createObject_ (ms : MissionScene) (k : MarkerKind)
    (g mat : ℕ) (p : GpsPos) (a : ℚ) (hp : GpsPos) (c : ℚ) :
    goodMarker ms.distance_ hp (createObject_ ms k g mat p a hp c) := by
  refine ⟨rfl, rfl, ⟨p, a, rfl⟩, fun _ => ?_, fun _ => rfl⟩
  simp [uniformScale, createObject_]

/-- The stationary-obstacle marker after its scale and rotation are
overwritten still satisfies the per-marker properties. -/
theorem goodMarker_stationary (ms : MissionScene) (o : StationaryObstacle) (hp : GpsPos) :
    goodMarker ms.distance_ hp
      { createObject_ ms MarkerKind.stationaryObstacle
          ms.stationaryObstacleGeometry_ ms.stationaryObstacleMaterial_
          o.toGpsPos (o.cylinder_height / 2) hp 1 with
        scale := ⟨o.cylinder_radius, o.cylinder_height, o.cylinder_radius⟩
        rotation := ⟨1/2, 0, 0⟩ } :=
  ⟨rfl, rfl, ⟨o.toGpsPos, o.cylinder_height / 2, rfl⟩,
    fun hk => absurd rfl hk, fun _ => rfl⟩

/-- Every marker added by `addMissionSceneElements_` satisfies the per-marker
properties. -/
theorem mission_markers_good (ms : MissionScene) (m : Mission) (hp : GpsPos) :
    ∀ mk ∈ markersOf (addMissionSceneElements_ ms m hp),
      goodMarker ms.distance_ hp mk := by
  intro mk hmk
  simp only [addMissionSceneElements_, markersOf_append, markersOf_map_markerObj,
    markersOf_markerObj_cons, markersOf_lineObj_cons, markersOf_nil,
    List.append_nil, List.nil_append, List.mem_append, List.mem_map,
    List.mem_singleton, List.mem_cons, List.not_mem_nil, or_false] at hmk
  rcases hmk with ((((rfl | ⟨c, _, rfl⟩) | ⟨p, _, rfl⟩) | ⟨w, _, rfl⟩)) <;>
    apply goodMarker_createObject_

/-- C5 counterexample: the concrete rebuilt scene `s0` (whose stationary
obstacle has `cylinder_radius = 5` and `cylinder_height = 30`) contains a
marker whose scale factors are not all equal, so not every rendered marker is
uniformly scaled. -/
theorem marker_uniform_scale_counterexample :
    ((markersOf s0).all uniformScale) = false := by decide

/-- C5 amended: every marker of every successfully rebuilt scene — home,
mission components, search-grid points, waypoints, stationary obstacles,
moving obstacles, telemetry — is placed via the shared conversion routine
`setObjectPosition_` relative to the mission home position and is flagged to
both cast and receive shadows; every marker except the stationary-obstacle
cylinders is uniformly scaled, while a stationary-obstacle cylinder is
rescaled to `(cylinder_radius, cylinder_height, cylinder_radius)`, equal on
its two horizontal axes only. -/
theorem marker_placement_scale_shadows (ms : MissionScene) (mission : Option Mission)
    (obstacles : Option Obstacles) (telemetry : Option (List Telemetry))
    (st : MissionScene) (ev : List Event) (s : Scene) (mk : Marker)
    (h : rebuildSceneE ms mission obstacles telemetry = Except.ok (st, ev))
    (hs : st.scene = some s) (hmk : mk ∈ markersOf s) :
    ∃ mi hp, mission = some mi ∧ mi.home_pos = some hp ∧
      goodMarker ms.distance_ hp mk := by
  unfold rebuildSceneE at h
  cases hb : buildSceneE ms mission obstacles telemetry with
  | error e => rw [hb] at h; cases h
  | ok s' =>
    rw [hb] at h
    obtain ⟨h1, _⟩ := Prod.mk.injEq .. ▸ (Except.ok.inj h)
    subst h1
    obtain rfl : s' = s := Option.some.inj hs
    cases mission with
    | none =>
      obtain rfl := Except.ok.inj hb
      simp [markersOf] at hmk
    | some m =>
      cases hm : m.home_pos with
      | none =>
        rw [show buildSceneE ms (some m) obstacles telemetry =
            match m.home_pos with
            | none => Except.ok [SceneObject.groundObj ms.ground,
                SceneObject.skyLightObj ms.skyLight, SceneObject.sunLightObj ms.sunLight]
            | some hp =>
              match addObstacleSceneElements_ ms m obstacles hp with
              | Except.error e => Except.error e
              | Except.ok obstacleObjs =>
                match addTelemetrySceneElements_ ms m telemetry hp with
                | Except.error e => Except.error e
                | Except.ok telemetryObjs =>
                  Except.ok ([SceneObject.groundObj ms.ground,
                    SceneObject.skyLightObj ms.skyLight, SceneObject.sunLightObj ms.sunLight]
                    ++ addMissionSceneElements_ ms m hp ++ obstacleObjs ++ telemetryObjs)
          from rfl, hm] at hb
        obtain rfl := Except.ok.inj hb
        simp [markersOf] at hmk
      | some hp =>
        refine ⟨m, hp, rfl, hm, ?_⟩
        cases obstacles with
        | none => simp [buildSceneE, hm, addObstacleSceneElements_] at hb
        | some obs =>
          cases telemetry with
          | none =>
            simp [buildSceneE, hm, addObstacleSceneElements_,
              addTelemetrySceneElements_] at hb
          | some ts =>
            simp only [buildSceneE, hm, addObstacleSceneElements_,
              addTelemetrySceneElements_, Except.ok.injEq] at hb
            subst hb
            simp only [markersOf_append, markersOf_map_markerObj, markersOf_lights,
              List.mem_append, List.mem_map, List.not_mem_nil, false_or] at hmk
            rcases hmk with (hmk | ⟨o, _, rfl⟩ | ⟨o, _, rfl⟩) | ⟨t, _, rfl⟩
            · exact mission_markers_good ms m hp mk hmk
            · exact goodMarker_stationary ms o hp
            · apply goodMarker_createObject_
            · apply goodMarker_createObject_

/-- Witness for the amended C5: the first marker of the concrete rebuilt
scene. -/
theorem marker_placement_scale_shadows_witness :
    ∃ mi hp, (some mission0 : Option Mission) = some mi ∧ mi.home_pos = some hp ∧
      goodMarker ms0.distance_ hp mk0 :=
  marker_placement_scale_shadows ms0 (some mission0) (some obstacles0) (some tel0)
    st0 ev0 s0 mk0 rfl rfl (getD_mem (markersOf s0) 0 (by decide))

/-- The search-grid line and waypoint line among the objects added by
`addMissionSceneElements_`: exactly one of each, with the closed-loop and
open-path segment lists respectively. -/
theorem linesOf_mission_elements (ms : MissionScene) (m : Mission) (hp : GpsPos) :
    linesOf LineKind.searchGrid (addMissionSceneElements_ ms m hp) =
      [closedLoopSegments (convertedGridPts ms m hp)] ∧
    linesOf LineKind.missionWaypoint (addMissionSceneElements_ ms m hp) =
      [openPathSegments (convertedWaypoints ms m hp)] := by
  unfold addMissionSceneElements_
  constructor <;>
    simp [linesOf_append, linesOf_map_markerObj, linesOf_markerObj_cons,
      linesOf_sg_cons_sg, linesOf_sg_cons_wp, linesOf_wp_cons_wp, linesOf_wp_cons_sg,
      linesOf_nil]

/-- In every successfully rebuilt scene for a mission with home position `hp`,
the line objects are exactly one search-grid line holding the closed-loop
segments of the converted grid points and one waypoint line holding the
open-path segments of the converted waypoints. -/
theorem linesOf_rebuilt_scene (ms : MissionScene) (mi : Mission)
    (obstacles : Option Obstacles) (telemetry : Option (List Telemetry))
    (st : MissionScene) (ev : List Event) (s : Scene) (hp : GpsPos)
    (hm : mi.home_pos = some hp)
    (h : rebuildSceneE ms (some mi) obstacles telemetry = Except.ok (st, ev))
    (hs : st.scene = some s) :
    linesOf LineKind.searchGrid s = [closedLoopSegments (convertedGridPts ms mi hp)] ∧
    linesOf LineKind.missionWaypoint s =
      [openPathSegments (convertedWaypoints ms mi hp)] := by
  unfold rebuildSceneE at h
  cases hb : buildSceneE ms (some mi) obstacles telemetry with
  | error e => rw [hb] at h; cases h
  | ok s' =>
    rw [hb] at h
    obtain ⟨h1, _⟩ := Prod.mk.injEq .. ▸ (Except.ok.inj h)
    subst h1
    obtain rfl : s' = s := Option.some.inj hs
    cases obstacles with
    | none => simp [buildSceneE, hm, addObstacleSceneElements_] at hb
    | some obs =>
      cases telemetry with
      | none =>
        simp [buildSceneE, hm, addObstacleSceneElements_,
          addTelemetrySceneElements_] at hb
      | some ts =>
        simp only [buildSceneE, hm, addObstacleSceneElements_,
          addTelemetrySceneElements_, Except.ok.injEq] at hb
        subst hb
        have hml := linesOf_mission_elements ms mi hp
        constructor <;>
          simp [linesOf_append, linesOf_lights, linesOf_map_markerObj,
            linesOf_ground_cons, linesOf_sky_cons, linesOf_sun_cons,
            hml.1, hml.2]

/-- C6: for every mission with a home position and `N` search-grid points,
the search-grid line geometry contains exactly `N` segments, the `i`-th
running from converted grid point `i` to converted grid point `(i+1) mod N`,
including the wrap-around segment; the converted points are the grid points
put through `setObjectPosition_`. -/
theorem search_grid_closed_loop_segments (ms : MissionScene) (mi : Mission)
    (obstacles : Option Obstacles) (telemetry : Option (List Telemetry))
    (st : MissionScene) (ev : List Event) (s : Scene) (hp : GpsPos)
    (hm : mi.home_pos = some hp)
    (h : rebuildSceneE ms (some mi) obstacles telemetry = Except.ok (st, ev))
    (hs : st.scene = some s) :
    linesOf LineKind.searchGrid s =
      [closedLoopSegments (convertedGridPts ms mi hp)] ∧
    (closedLoopSegments (convertedGridPts ms mi hp)).length =
      mi.search_grid_points.length ∧
    (∀ i, i < mi.search_grid_points.length →
      (closedLoopSegments (convertedGridPts ms mi hp)).getD i default =
        ((convertedGridPts ms mi hp).getD i default,
         (convertedGridPts ms mi hp).getD
           ((i + 1) % mi.search_grid_points.length) default)) ∧
    (∀ i, i < mi.search_grid_points.length →
      (convertedGridPts ms mi hp).getD i default =
        setObjectPosition_ ms.distance_ (mi.search_grid_points.getD i default)
          ms.searchGridPtRadius_ hp) := by
  have hlen : (convertedGridPts ms mi hp).length = mi.search_grid_points.length := by
    simp [convertedGridPts]
  refine ⟨(linesOf_rebuilt_scene ms mi obstacles telemetry st ev s hp hm h hs).1,
    by rw [closedLoopSegments_length, hlen], ?_, ?_⟩
  · intro i hi
    rw [closedLoopSegments_getD (convertedGridPts ms mi hp) i (hlen ▸ hi), hlen]
  · intro i hi
    exact getD_map mi.search_grid_points _ i default hi

/-- Witness for C6: the concrete mission `mission0` with three grid points. -/
theorem search_grid_closed_loop_segments_witness :
    linesOf LineKind.searchGrid s0 =
      [closedLoopSegments (convertedGridPts ms0 mission0 ⟨10, 20⟩)] ∧
    (closedLoopSegments (convertedGridPts ms0 mission0 ⟨10, 20⟩)).length =
      mission0.search_grid_points.length ∧
    (∀ i, i < mission0.search_grid_points.length →
      (closedLoopSegments (convertedGridPts ms0 mission0 ⟨10, 20⟩)).getD i default =
        ((convertedGridPts ms0 mission0 ⟨10, 20⟩).getD i default,
         (convertedGridPts ms0 mission0 ⟨10, 20⟩).getD
           ((i + 1) % mission0.search_grid_points.length) default)) ∧
    (∀ i, i < mission0.search_grid_points.length →
      (convertedGridPts ms0 mission0 ⟨10, 20⟩).getD i default =
        setObjectPosition_ ms0.distance_ (mission0.search_grid_points.getD i default)
          ms0.searchGridPtRadius_ ⟨10, 20⟩) :=
  search_grid_closed_loop_segments ms0 mission0 (some obstacles0) (some tel0)
    st0 ev0 s0 ⟨10, 20⟩ rfl rfl rfl

/-- C7: for every mission with a home position and `N ≥ 1` mission waypoints,
the waypoint line geometry contains exactly `N - 1` segments, the `i`-th
running from converted waypoint `i` to converted waypoint `i + 1`, with no
wrap-around segment; the converted points are the waypoints put through
`setObjectPosition_` at their own altitudes. -/
theorem mission_waypoint_open_path_segments (ms : MissionScene) (mi : Mission)
    (obstacles : Option Obstacles) (telemetry : Option (List Telemetry))
    (st : MissionScene) (ev : List Event) (s : Scene) (hp : GpsPos)
    (hm : mi.home_pos = some hp)
    (h : rebuildSceneE ms (some mi) obstacles telemetry = Except.ok (st, ev))
    (hs : st.scene = some s)
    (hN : 1 ≤ mi.mission_waypoints.length) :
    linesOf LineKind.missionWaypoint s =
      [openPathSegments (convertedWaypoints ms mi hp)] ∧
    (openPathSegments (convertedWaypoints ms mi hp)).length =
      mi.mission_waypoints.length - 1 ∧
    (∀ i, i < mi.mission_waypoints.length - 1 →
      (openPathSegments (convertedWaypoints ms mi hp)).getD i default =
        ((convertedWaypoints ms mi hp).getD i default,
         (convertedWaypoints ms mi hp).getD (i + 1) default)) ∧
    (∀ i, i < mi.mission_waypoints.length →
      (convertedWaypoints ms mi hp).getD i default =
        setObjectPosition_ ms.distance_
          (mi.mission_waypoints.getD i default).toGpsPos
          (mi.mission_waypoints.getD i default).altitude_msl hp) := by
  have hlen : (convertedWaypoints ms mi hp).length = mi.mission_waypoints.length := by
    simp [convertedWaypoints]
  refine ⟨(linesOf_rebuilt_scene ms mi obstacles telemetry st ev s hp hm h hs).2,
    by rw [openPathSegments_length, hlen], ?_, ?_⟩
  · intro i hi
    exact openPathSegments_getD (convertedWaypoints ms mi hp) i (by rw [hlen]; exact hi)
  · intro i hi
    exact getD_map mi.mission_waypoints _ i default hi

/-- Witness for C7: the concrete mission `mission0` with two waypoints. -/
theorem mission_waypoint_open_path_segments_witness :
    linesOf LineKind.missionWaypoint s0 =
      [openPathSegments (convertedWaypoints ms0 mission0 ⟨10, 20⟩)] ∧
    (openPathSegments (convertedWaypoints ms0 mission0 ⟨10, 20⟩)).length =
      mission0.mission_waypoints.length - 1 ∧
    (∀ i, i < mission0.mission_waypoints.length - 1 →
      (openPathSegments (convertedWaypoints ms0 mission0 ⟨10, 20⟩)).getD i default =
        ((convertedWaypoints ms0 mission0 ⟨10, 20⟩).getD i default,
         (convertedWaypoints ms0 mission0 ⟨10, 20⟩).getD (i + 1) default)) ∧
    (∀ i, i < mission0.mission_waypoints.length →
      (convertedWaypoints ms0 mission0 ⟨10, 20⟩).getD i default =
        setObjectPosition_ ms0.distance_
          (mission0.mission_waypoints.getD i default).toGpsPos
          (mission0.mission_waypoints.getD i default).altitude_msl ⟨10, 20⟩) :=
  mission_waypoint_open_path_segments ms0 mission0 (some obstacles0) (some tel0)
    st0 ev0 s0 ⟨10, 20⟩ rfl rfl rfl (by decide)

/-- C8: the scene is deterministic in the inputs: a second call to
`rebuildScene` with identical inputs, made from the state the first call
produced, succeeds and produces a structurally equal state (same scene, hence
same counts of markers and lines and same positions) and the same event
list. -/
theorem rebuildScene_deterministic (ms : MissionScene) (mission : Option Mission)
    (obstacles : Option Obstacles) (telemetry : Option (List Telemetry))
    (st : MissionScene) (ev : List Event)
    (h : rebuildSceneE ms mission obstacles telemetry = Except.ok (st, ev)) :
    rebuildSceneE st mission obstacles telemetry = Except.ok (st, ev) := by
  unfold rebuildSceneE at h ⊢
  cases hb : buildSceneE ms mission obstacles telemetry with
  | error e => rw [hb] at h; cases h
  | ok s =>
    rw [hb] at h
    obtain ⟨h1, h2⟩ := Prod.mk.injEq .. ▸ (Except.ok.inj h)
    subst h1; subst h2
    rw [buildSceneE_update_scene ms (some s) mission obstacles telemetry, hb]

/-- Witness for C8: rebuilding again from the concrete post state `st0`. -/
theorem rebuildScene_deterministic_witness :
    rebuildSceneE st0 (some mission0) (some obstacles0) (some tel0) =
      Except.ok (st0, ev0) :=
  rebuildScene_deterministic ms0 (some mission0) (some obstacles0) (some tel0)
    st0 ev0 rfl

/-- C9: `rebuildScene` never replaces or mutates the rendering resources
created at construction: after any call (successful or not) the state differs
from the pre state at most in the `scene` field, and in particular the ground
mesh, the two lights, the ground texture/material/geometry, every
marker geometry and material, the line materials and the injected distance
function are the same objects as before. -/
theorem rebuildScene_preserves_resources (ms : MissionScene) (mission : Option Mission)
    (obstacles : Option Obstacles) (telemetry : Option (List Telemetry)) :
    (runRebuild ms mission obstacles telemetry).1 =
      { ms with scene := (runRebuild ms mission obstacles telemetry).1.scene } ∧
    (runRebuild ms mission obstacles telemetry).1.ground = ms.ground ∧
    (runRebuild ms mission obstacles telemetry).1.skyLight = ms.skyLight ∧
    (runRebuild ms mission obstacles telemetry).1.sunLight = ms.sunLight ∧
    (runRebuild ms mission obstacles telemetry).1.groundTexture_ = ms.groundTexture_ ∧
    (runRebuild ms mission obstacles telemetry).1.groundMaterial_ = ms.groundMaterial_ ∧
    (runRebuild ms mission obstacles telemetry).1.groundGeometry_ = ms.groundGeometry_ ∧
    (runRebuild ms mission obstacles telemetry).1.missionComponentGeometry_ =
      ms.missionComponentGeometry_ ∧
    (runRebuild ms mission obstacles telemetry).1.missionComponentMaterial_ =
      ms.missionComponentMaterial_ ∧
    (runRebuild ms mission obstacles telemetry).1.homePosGeometry_ = ms.homePosGeometry_ ∧
    (runRebuild ms mission obstacles telemetry).1.homePosMaterial_ = ms.homePosMaterial_ ∧
    (runRebuild ms mission obstacles telemetry).1.searchGridPtGeometry_ =
      ms.searchGridPtGeometry_ ∧
    (runRebuild ms mission obstacles telemetry).1.searchGridPtMaterial_ =
      ms.searchGridPtMaterial_ ∧
    (runRebuild ms mission obstacles telemetry).1.searchGridPtLineMaterial_ =
      ms.searchGridPtLineMaterial_ ∧
    (runRebuild ms mission obstacles telemetry).1.missionWaypointGeometry_ =
      ms.missionWaypointGeometry_ ∧
    (runRebuild ms mission obstacles telemetry).1.missionWaypointMaterial_ =
      ms.missionWaypointMaterial_ ∧
    (runRebuild ms mission obstacles telemetry).1.missionWaypointLineMaterial_ =
      ms.missionWaypointLineMaterial_ ∧
    (runRebuild ms mission obstacles telemetry).1.stationaryObstacleGeometry_ =
      ms.stationaryObstacleGeometry_ ∧
    (runRebuild ms mission obstacles telemetry).1.stationaryObstacleMaterial_ =
      ms.stationaryObstacleMaterial_ ∧
    (runRebuild ms mission obstacles telemetry).1.movingObstacleGeometry_ =
      ms.movingObstacleGeometry_ ∧
    (runRebuild ms mission obstacles telemetry).1.movingObstacleMaterial_ =
      ms.movingObstacleMaterial_ ∧
    (runRebuild ms mission obstacles telemetry).1.telemetryGeometry_ =
      ms.telemetryGeometry_ ∧
    (runRebuild ms mission obstacles telemetry).1.telemetryMaterial_ =
      ms.telemetryMaterial_ ∧
    (runRebuild ms mission obstacles telemetry).1.distance_ = ms.distance_ := by
  unfold runRebuild rebuildSceneE
  cases buildSceneE ms mission obstacles telemetry with
  | error e => exact ⟨rfl, rfl, rfl, rfl, rfl, rfl, rfl, rfl, rfl, rfl, rfl, rfl,
      rfl, rfl, rfl, rfl, rfl, rfl, rfl, rfl, rfl, rfl, rfl, rfl⟩
  | ok s => exact ⟨rfl, rfl, rfl, rfl, rfl, rfl, rfl, rfl, rfl, rfl, rfl, rfl,
      rfl, rfl, rfl, rfl, rfl, rfl, rfl, rfl, rfl, rfl, rfl, rfl⟩

/-- C10: if the mission has a home position and obstacles or telemetry is
null, `rebuildScene` raises an error, the public `scene` field keeps its
previous value, and no `'MissionScene.sceneUpdated'` notification is
emitted. -/
theorem rebuildScene_failure_no_update (ms : MissionScene) (mi : Mission)
    (obstacles : Option Obstacles) (telemetry : Option (List Telemetry)) (hp : GpsPos)
    (hm : mi.home_pos = some hp)
    (hnull : obstacles = none ∨ telemetry = none) :
    rebuildOk ms (some mi) obstacles telemetry = false ∧
    (runRebuild ms (some mi) obstacles telemetry).1.scene = ms.scene ∧
    (runRebuild ms (some mi) obstacles telemetry).2 = [] := by
  rcases hnull with rfl | rfl
  · simp [rebuildOk, runRebuild, rebuildSceneE, buildSceneE, hm,
      addObstacleSceneElements_]
  · cases obstacles with
    | none =>
      simp [rebuildOk, runRebuild, rebuildSceneE, buildSceneE, hm,
        addObstacleSceneElements_]
    | some obs =>
      simp [rebuildOk, runRebuild, rebuildSceneE, buildSceneE, hm,
        addObstacleSceneElements_, addTelemetrySceneElements_]

/-- Witness for C10: the concrete service with null telemetry. -/
theorem rebuildScene_failure_no_update_witness :
    rebuildOk ms0 (some mission0) (some obstacles0) none = false ∧
    (runRebuild ms0 (some mission0) (some obstacles0) none).1.scene = ms0.scene ∧
    (runRebuild ms0 (some mission0) (some obstacles0) none).2 = [] :=
  rebuildScene_failure_no_update ms0 mission0 (some obstacles0) none ⟨10, 20⟩
    rfl (Or.inr rfl)

end AuvsiSuas
